import Mathlib

/-!
Shallow embedding of the StyloSphere AI application core, translated from
the TypeScript sources: the data model (`src/types.ts`), the top-level
`App` component (tab router, hand-off slot, gallery list with its
localStorage load/persist effects, `handleAddToGallery`,
`handleDeleteFromGallery`), and the per-workflow generate/save handlers of
`ImageGenerator`, `OutfitStudio` and `VideoGenerator`.

Modelling conventions:
- React `useState` values of a component are gathered into a structure; an
  event handler becomes a function from the old state (plus the values the
  handler reads from the environment) to the new state.
- `Date.now()` and `Math.random()` are external reads: each call site gets
  an explicit argument (a `Nat` for `Date.now()`, and the decimal rendering
  of the random number as a `String`, since the source only ever uses it
  inside a template literal).
- An awaited external AI call is passed in as its settled outcome,
  `Except JSError String`: `ok` for a fulfilled promise, `error` for a
  rejected one carrying the thrown value.
- `localStorage` is the single record `styloSphereGallery`, `Option String`
  (`none` = record absent). `JSON.parse` of that record is an external
  collaborator passed in as a function returning `Except` (an exception is
  the `error` case). `JSON.stringify` on the gallery list is embedded
  concretely below.
- A React state setter does not take effect within the handler call; an
  effect hook with dependency `[galleryImages]` runs after the commit that
  changed the list. The mount sequence runs the effects in declaration
  order against the initial committed state.
-/

/-- In-memory representation of an image (`src/types.ts`, `ImageFile`). -/
structure ImageFile where
  base64 : String
  mimeType : String
  name : String
deriving DecidableEq

/-- A saved gallery entry (`src/types.ts`, `GalleryImage extends ImageFile`
with `id`, `prompt`, `timestamp`); flattened here. -/
structure GalleryImage where
  base64 : String
  mimeType : String
  name : String
  id : String
  prompt : String
  timestamp : Nat
deriving DecidableEq

/-- The payload a workflow passes when saving:
`Omit<GalleryImage, 'id' | 'timestamp'>`. -/
structure GalleryImageData where
  base64 : String
  mimeType : String
  name : String
  prompt : String
deriving DecidableEq

/-- The tab enumeration (`src/types.ts`, `enum AppTab`), in declaration
order; the source spells the members OUTFIT_STUDIO, IMAGE_GENERATOR,
IMAGE_EDITOR, TIKTOK_SHOP_CREATOR, STYLE_TRANSFER, VIDEO_GENERATOR,
GALLERY. -/
inductive AppTab where
  | outfitStudioTab
  | imageGeneratorTab
  | imageEditorTab
  | tiktokShopCreatorTab
  | styleTransferTab
  | videoGeneratorTab
  | galleryTab
deriving DecidableEq

/-- The string value of each `AppTab` member. -/
def AppTab.label : AppTab → String
  | .outfitStudioTab => "Outfit Studio"
  | .imageGeneratorTab => "Image Generator"
  | .imageEditorTab => "Image Editor"
  | .tiktokShopCreatorTab => "TikTok Shop Creator"
  | .styleTransferTab => "Style Transfer"
  | .videoGeneratorTab => "Video Generator"
  | .galleryTab => "My Gallery"

/-- `Object.values(AppTab)` in declaration order (drives the tab bar). -/
def AppTab.values : List AppTab :=
  [.outfitStudioTab, .imageGeneratorTab, .imageEditorTab, .tiktokShopCreatorTab,
   .styleTransferTab, .videoGeneratorTab, .galleryTab]

/-- Top-level `App` state: the active tab, the hand-off slot
(`videoSourceImage`) and the gallery list. -/
structure AppState where
  activeTab : AppTab
  videoSourceImage : Option ImageFile
  galleryImages : List GalleryImage
deriving DecidableEq

/-- The initial `useState` values of `App`. -/
def initialAppState : AppState :=
  { activeTab := AppTab.outfitStudioTab
  , videoSourceImage := none
  , galleryImages := [] }

/-- The id template literal in `handleAddToGallery`,
`` `${Date.now()}-${Math.random()}` ``: `idNow` is the value of the
`Date.now()` call and `rand` the decimal rendering of the `Math.random()`
call. -/
def mkGalleryId (idNow : Nat) (rand : String) : String :=
  toString idNow ++ "-" ++ rand

/-- `handleAddToGallery` in `App`: builds the new `GalleryImage` from the
passed payload plus a synthesized id and timestamp, and prepends it to the
list. `idNow` and `tsNow` are the two `Date.now()` reads (id first,
timestamp second) and `rand` the `Math.random()` component. -/
def handleAddToGallery (imageData : GalleryImageData) (idNow tsNow : Nat)
    (rand : String) (s : AppState) : AppState :=
  let newImage : GalleryImage :=
    { base64 := imageData.base64
    , mimeType := imageData.mimeType
    , name := imageData.name
    , prompt := imageData.prompt
    , id := mkGalleryId idNow rand
    , timestamp := tsNow }
  { s with galleryImages := newImage :: s.galleryImages }

/-- `handleDeleteFromGallery` in `App`:
`prev.filter(img => img.id !== id)`. -/
def handleDeleteFromGallery (id : String) (s : AppState) : AppState :=
  { s with galleryImages := s.galleryImages.filter (fun img => img.id != id) }

/-- `handleOutfitCreated` in `App`: stores the hand-off image and routes to
the video generator tab. -/
def handleOutfitCreated (image : ImageFile) (s : AppState) : AppState :=
  { s with videoSourceImage := some image
         , activeTab := AppTab.videoGeneratorTab }

/-- The tab bar button `onClick` in `App`: clears the hand-off slot unless
the clicked tab is the video generator, then activates the clicked tab. -/
def tabNavClick (tab : AppTab) (s : AppState) : AppState :=
  let s1 := if tab ≠ AppTab.videoGeneratorTab
            then { s with videoSourceImage := none } else s
  { s1 with activeTab := tab }

/-- What `renderActiveTab` mounts, one constructor per workflow view plus
`noView` for the `default: return null` branch. The component
`TikTokShopCreator` exists (`src/components/TikTokShopCreator.tsx`), so it
has a constructor, but the switch never returns it. -/
inductive RenderedView where
  | outfitStudio
  | imageGenerator
  | imageEditor
  | styleTransfer
  | videoGenerator (sourceImage : Option ImageFile)
  | galleryView (images : List GalleryImage)
  | tikTokShopCreator
  | noView
deriving DecidableEq

/-- The `renderActiveTab` switch in `App`. `AppTab.tiktokShopCreatorTab` has
no case, so it falls through to the default branch returning null. -/
def renderActiveTab (s : AppState) : RenderedView :=
  match s.activeTab with
  | AppTab.outfitStudioTab => RenderedView.outfitStudio
  | AppTab.imageGeneratorTab => RenderedView.imageGenerator
  | AppTab.imageEditorTab => RenderedView.imageEditor
  | AppTab.styleTransferTab => RenderedView.styleTransfer
  | AppTab.videoGeneratorTab => RenderedView.videoGenerator s.videoSourceImage
  | AppTab.galleryTab => RenderedView.galleryView s.galleryImages
  | AppTab.tiktokShopCreatorTab => RenderedView.noView

/-- Props of one `TabButton` (`isDisabled` defaults to false). -/
structure TabButtonProps where
  label : String
  isActive : Bool
  isDisabled : Bool
deriving DecidableEq

/-- The `Object.values(AppTab).map` in `App`'s nav bar: one enabled button
per tab (the disabled coming-soon buttons are separate and carry no tab). -/
def navTabButtons (s : AppState) : List TabButtonProps :=
  AppTab.values.map (fun tab =>
    { label := tab.label
    , isActive := decide (s.activeTab = tab)
    , isDisabled := false })

/-- JSON string escaping as `JSON.stringify` performs it on the string
fields appearing here (backslash and double quote; the modelled payloads
contain no control characters, which would additionally be escaped). -/
def jsonEscape (s : String) : String :=
  s.foldl (fun acc c =>
    acc ++ (if c = '\\' then "\\\\"
            else if c = '"' then "\\\""
            else c.toString)) ""

/-- `JSON.stringify` of one `GalleryImage`, fields in the construction order
of `handleAddToGallery` (the spread payload fields, then `id`, then
`timestamp`). -/
def serializeGalleryImage (g : GalleryImage) : String :=
  "\x7b\"base64\":\"" ++ jsonEscape g.base64
    ++ "\",\"mimeType\":\"" ++ jsonEscape g.mimeType
    ++ "\",\"name\":\"" ++ jsonEscape g.name
    ++ "\",\"prompt\":\"" ++ jsonEscape g.prompt
    ++ "\",\"id\":\"" ++ jsonEscape g.id
    ++ "\",\"timestamp\":" ++ toString g.timestamp ++ "\x7d"

/-- `JSON.stringify(galleryImages)`: a JSON array of the serialized
entries. -/
def serializeGallery (l : List GalleryImage) : String :=
  "[" ++ String.intercalate "," (l.map serializeGalleryImage) ++ "]"

/-- The `App` state together with the durable `styloSphereGallery` record of
`localStorage` (`none` when the record is absent). -/
structure AppWorld where
  state : AppState
  storage : Option String
deriving DecidableEq

/-- What a call to the append mutation itself does: it updates the
in-memory list through `setGalleryImages`. Durable storage is untouched
until the persist effect runs after the commit. -/
def appendCall (d : GalleryImageData) (idNow tsNow : Nat) (rand : String)
    (w : AppWorld) : AppWorld :=
  { w with state := handleAddToGallery d idNow tsNow rand w.state }

/-- What a call to the remove mutation itself does (same staging as
`appendCall`). -/
def removeCall (id : String) (w : AppWorld) : AppWorld :=
  { w with state := handleDeleteFromGallery id w.state }

/-- The persist effect in `App` (`useEffect` with dependency
`[galleryImages]`): `localStorage.setItem` of the serialized current list.
A `setItem` failure (`writeOk = false`) is caught and only logged, leaving
both storage and the in-memory state unchanged. -/
def persistEffect (writeOk : Bool) (w : AppWorld) : AppWorld :=
  if writeOk
  then { w with storage := some (serializeGallery w.state.galleryImages) }
  else w

/-- The load effect in `App` (mount-only `useEffect`): reads the record;
when present, parses it and schedules `setGalleryImages` with the parsed
list; a `JSON.parse` exception is caught and logged, scheduling nothing
(so the state keeps its initial empty list). Returns the scheduled update,
if any. -/
def loadEffect (stored : Option String)
    (parse : String → Except String (List GalleryImage)) :
    Option (List GalleryImage) :=
  match stored with
  | none => none
  | some str =>
    match parse str with
    | Except.ok l => some l
    | Except.error _ => none

/-- The gallery list `App` holds once the load effect has settled: the
parsed list on success, the initial empty list when the record is absent or
the parse throws. Nothing is raised to the caller in any case. -/
def loadGalleryResult (stored : Option String)
    (parse : String → Except String (List GalleryImage)) :
    List GalleryImage :=
  match loadEffect stored parse with
  | none => initialAppState.galleryImages
  | some l => l

/-- The mount sequence of `App` with storage writes succeeding: the first
commit renders the initial state (empty gallery); its effects run in
declaration order — the load effect, which may schedule a state update,
then the persist effect over the still-initial list; if the load effect
scheduled an update, the list changes and the persist effect re-runs on the
second commit with the loaded list. -/
def mountApp (stored : Option String)
    (parse : String → Except String (List GalleryImage)) : AppWorld :=
  let w0 : AppWorld := { state := initialAppState, storage := stored }
  let w1 := persistEffect true w0
  match loadEffect stored parse with
  | none => w1
  | some l =>
    persistEffect true
      { w1 with state := { w1.state with galleryImages := l } }

/-- The successive values the persist effect writes during the mount
sequence of `mountApp`, in order: first the serialization of the initial
empty list, then, when the load effect scheduled an update, the
serialization of the loaded list. -/
def mountPersistWrites (stored : Option String)
    (parse : String → Except String (List GalleryImage)) : List String :=
  match loadEffect stored parse with
  | none => [serializeGallery []]
  | some l => [serializeGallery [], serializeGallery l]

/-- The value a rejected external call throws: an `Error` carrying a
message, or some non-`Error` value (the handlers test `e instanceof
Error`). -/
inductive JSError where
  | errorObj (msg : String)
  | nonError
deriving DecidableEq

/-- The message the catch blocks derive from the thrown value:
`e instanceof Error ? e.message : fallback`. -/
def errMessageOr (fallback : String) : JSError → String
  | JSError.errorObj msg => msg
  | JSError.nonError => fallback

/-- The `ImageGenerator` result slot: `{ url: string; saved: boolean }`. -/
structure GeneratedImage where
  url : String
  saved : Bool
deriving DecidableEq

/-- The `useState` values of `ImageGenerator`. -/
structure ImageGeneratorState where
  prompt : String
  isEnhancing : Bool
  isLoading : Bool
  error : Option String
  generatedImage : Option GeneratedImage
deriving DecidableEq

/-- `handleGenerate` in `ImageGenerator`, with the awaited `generateImage`
outcome passed in. The empty-prompt guard returns early having set only the
error text; otherwise the error and result are cleared, the call is
awaited, the catch branch stores the derived message (the result stays
cleared), and `finally` drops the loading flag. -/
def igHandleGenerate (s : ImageGeneratorState)
    (outcome : Except JSError String) : ImageGeneratorState :=
  if s.prompt = "" then { s with error := some "Please enter a prompt." }
  else
    match outcome with
    | Except.ok imageUrl =>
      { s with isLoading := false
             , error := none
             , generatedImage := some { url := imageUrl, saved := false } }
    | Except.error e =>
      { s with isLoading := false
             , error := some (errMessageOr "An unknown error occurred." e)
             , generatedImage := none }

/-- The filename built in `ImageGenerator`'s save handler:
`prompt.substring(0, 30).trim().replace(/\s/g, '_') + '.jpg'`. -/
def igSaveName (prompt : String) : String :=
  ((prompt.take 30).trim.map (fun c => if c.isWhitespace then '_' else c))
    ++ ".jpg"

/-- The base64 payload pulled out of a data URI, `url.split(',')[1]`: the
piece after the first comma (the data URIs produced by generation always
contain one; on a comma-free string JS would yield `undefined`). -/
def dataUriBase64 (url : String) : String :=
  (url.splitOn ",").getD 1 ""

/-- `handleSaveToGallery` in `ImageGenerator`, composed with the
`onAddToGallery` callback, which `App` binds to `handleAddToGallery`: a
no-op unless a result is present with `saved` still false; otherwise it
appends the payload to the gallery and flips `saved` to true. -/
def igHandleSaveToGallery (ig : ImageGeneratorState) (idNow tsNow : Nat)
    (rand : String) (app : AppState) : ImageGeneratorState × AppState :=
  match ig.generatedImage with
  | none => (ig, app)
  | some g =>
    if g.saved then (ig, app)
    else
      ({ ig with generatedImage := some { g with saved := true } },
       handleAddToGallery
         { base64 := dataUriBase64 g.url
         , mimeType := "image/jpeg"
         , name := igSaveName ig.prompt
         , prompt := ig.prompt }
         idNow tsNow rand app)

/-- The `OutfitStudio` result slot: `{ file: ImageFile; saved: boolean }`. -/
structure OutfitResult where
  file : ImageFile
  saved : Bool
deriving DecidableEq

/-- `handleSaveToGallery` in `OutfitStudio`, composed with the
`onAddToGallery` callback bound to `handleAddToGallery`; the prompt saved
is the fixed caption used there. -/
def outfitHandleSaveToGallery (resultImage : Option OutfitResult)
    (idNow tsNow : Nat) (rand : String) (app : AppState) :
    Option OutfitResult × AppState :=
  match resultImage with
  | none => (none, app)
  | some r =>
    if r.saved then (some r, app)
    else
      (some { r with saved := true },
       handleAddToGallery
         { base64 := r.file.base64
         , mimeType := r.file.mimeType
         , name := r.file.name
         , prompt := "Outfit created in StyloSphere Studio" }
         idNow tsNow rand app)

/-- The props record `App`'s JSX passes to `OutfitStudio`
(`onOutfitCreated={handleOutfitCreated} onAddToGallery={handleAddToGallery}`),
laid out under the union of the prop names the JSX supplies and the names
`OutfitStudio`'s interface declares. A name the JSX does not supply is
`undefined` on the received object, modelled as `none`. -/
structure OutfitStudioPassedProps where
  onOutfitCreated : Option (ImageFile → AppState → AppState)
  onImageReadyForVideo : Option (ImageFile → AppState → AppState)
  onAddToGallery :
    Option (GalleryImageData → Nat → Nat → String → AppState → AppState)

/-- The concrete props object created by
`<OutfitStudio onOutfitCreated={handleOutfitCreated}
onAddToGallery={handleAddToGallery} />` in `renderActiveTab`: no value is
ever passed under the name `onImageReadyForVideo`. -/
def appOutfitStudioProps : OutfitStudioPassedProps :=
  { onOutfitCreated := some handleOutfitCreated
  , onImageReadyForVideo := none
  , onAddToGallery := some handleAddToGallery }

/-- `handleCreateVideo` in `OutfitStudio`: with a result present it invokes
the destructured `onImageReadyForVideo` prop on the result's file; invoking
an `undefined` prop throws a `TypeError` at runtime, modelled as the
`Except.error` case. -/
def outfitHandleCreateVideo (props : OutfitStudioPassedProps)
    (resultImage : Option OutfitResult) (s : AppState) :
    Except String AppState :=
  match resultImage with
  | none => Except.ok s
  | some r =>
    match props.onImageReadyForVideo with
    | some f => Except.ok (f r.file s)
    | none => Except.error "TypeError: onImageReadyForVideo is not a function"

/-- The `useState` values of `VideoGenerator` relevant to its generate
handler (the transient progress message is view-only and not tracked). -/
structure VideoGeneratorState where
  prompt : String
  inputImage : Option ImageFile
  isLoading : Bool
  error : Option String
  generatedVideoUrl : Option String
  apiKeyReady : Bool
deriving DecidableEq

/-- The `String.prototype.includes` test the catch branch applies to the
error message. -/
def strIncludes (s sub : String) : Bool :=
  decide (sub.toList <:+: s.toList)

/-- `handleGenerate` in `VideoGenerator`, with the awaited `generateVideo`
outcome passed in. The guards return early (missing image, key not ready);
otherwise the error and previous video are cleared and the call awaited; on
rejection the derived message is stored, then replaced — with the API-key
flag reset — when it includes the entity-not-found marker; `finally` drops
the loading flag. -/
def vgHandleGenerate (s : VideoGeneratorState)
    (outcome : Except JSError String) : VideoGeneratorState :=
  if s.inputImage.isNone then
    { s with error := some "Please upload an image to start." }
  else if !s.apiKeyReady then
    { s with error := some "API Key is not ready. Please select an API key." }
  else
    match outcome with
    | Except.ok videoUrl =>
      { s with isLoading := false
             , error := none
             , generatedVideoUrl := some videoUrl }
    | Except.error e =>
      let errorMessage := errMessageOr "An unknown error occurred." e
      if strIncludes errorMessage "Requested entity was not found" then
        { s with isLoading := false
               , generatedVideoUrl := none
               , error := some "API Key not found or invalid. Please select your key again."
               , apiKeyReady := false }
      else
        { s with isLoading := false
               , generatedVideoUrl := none
               , error := some errorMessage }

/-- One append instruction of a call sequence: the payload plus the two
`Date.now()` reads and the `Math.random()` rendering that
`handleAddToGallery` draws for it. -/
structure AppendInput where
  data : GalleryImageData
  idNow : Nat
  tsNow : Nat
  rand : String
deriving DecidableEq

/-- The `GalleryImage` an append instruction materializes. -/
def mkImageOfInput (i : AppendInput) : GalleryImage :=
  { base64 := i.data.base64
  , mimeType := i.data.mimeType
  , name := i.data.name
  , prompt := i.data.prompt
  , id := mkGalleryId i.idNow i.rand
  , timestamp := i.tsNow }

/-- A sequence of `handleAddToGallery` calls, applied in order. -/
def appendSeq (inputs : List AppendInput) (s : AppState) : AppState :=
  inputs.foldl
    (fun st i => handleAddToGallery i.data i.idNow i.tsNow i.rand st) s

/-- The ids of a gallery list, in list order. -/
def galleryIds (l : List GalleryImage) : List String :=
  l.map GalleryImage.id

/-- A sample image file used in concrete scenarios. -/
def sampleImageFile : ImageFile :=
  { base64 := "QUJD", mimeType := "image/png", name := "outfit.png" }

/-- A sample save payload used in concrete scenarios. -/
def sampleData : GalleryImageData :=
  { base64 := "QUJD", mimeType := "image/jpeg", name := "look.jpg"
  , prompt := "a look" }

/-- A sample persisted gallery entry whose id was synthesized from
`Date.now() = 7` and `Math.random() = 0.5`. -/
def sampleEntry : GalleryImage :=
  { base64 := "QQ==", mimeType := "image/png", name := "x.png"
  , id := "7-0.5", prompt := "p", timestamp := 7 }

/-- An `App` state whose gallery holds exactly `sampleEntry`. -/
def sampleAppState : AppState :=
  { activeTab := AppTab.galleryTab, videoSourceImage := none
  , galleryImages := [sampleEntry] }

/-- A world with an empty in-memory gallery whose previous serialization is
already committed to storage. -/
def emptyCommittedWorld : AppWorld :=
  { state := { activeTab := AppTab.galleryTab, videoSourceImage := none
             , galleryImages := [] }
  , storage := some "[]" }

/-- A `JSON.parse` stand-in that always throws (any unparsable record). -/
def badParse : String → Except String (List GalleryImage) :=
  fun _ => Except.error "SyntaxError: Unexpected token"

/-- Helper: the gallery list an append sequence produces is the reversed
materialized inputs in front of the starting list. -/
theorem appendSeq_galleryImages (inputs : List AppendInput) (s : AppState) :
    (appendSeq inputs s).galleryImages
      = (inputs.map mkImageOfInput).reverse ++ s.galleryImages := by
  induction inputs generalizing s with
  | nil => simp [appendSeq]
  | cons i is ih =>
    have hstep : appendSeq (i :: is) s
        = appendSeq is (handleAddToGallery i.data i.idNow i.tsNow i.rand s) := rfl
    have hadd : (handleAddToGallery i.data i.idNow i.tsNow i.rand s).galleryImages
        = mkImageOfInput i :: s.galleryImages := rfl
    rw [hstep, ih, hadd]
    simp

/-- C1: the hand-off scenario is broken in the code. `App`'s JSX passes the
router callback under the prop name `onOutfitCreated`, while `OutfitStudio`
declares and destructures `onImageReadyForVideo`; the received prop is
therefore `undefined` and clicking "Create Video with this Image" throws a
`TypeError` instead of switching the router to the video tab. The intended
handler (`handleOutfitCreated`) would have produced exactly the claimed
hand-off, and the slot-clearing half of the claim does hold of the tab bar
`onClick`. -/
theorem c1_handoff_wiring_broken :
    appOutfitStudioProps.onImageReadyForVideo = none
    ∧ outfitHandleCreateVideo appOutfitStudioProps
        (some { file := sampleImageFile, saved := false }) initialAppState
        = Except.error "TypeError: onImageReadyForVideo is not a function"
    ∧ handleOutfitCreated sampleImageFile initialAppState
        = { activeTab := AppTab.videoGeneratorTab
          , videoSourceImage := some sampleImageFile
          , galleryImages := [] }
    ∧ (tabNavClick AppTab.galleryTab
        (handleOutfitCreated sampleImageFile initialAppState)).videoSourceImage
        = none
    ∧ renderActiveTab
        (tabNavClick AppTab.videoGeneratorTab
          (tabNavClick AppTab.galleryTab
            (handleOutfitCreated sampleImageFile initialAppState)))
        = RenderedView.videoGenerator none := by
  refine ⟨rfl, rfl, rfl, ?_, ?_⟩ <;> decide

/-- C2 counterexample: immediately after an append call returns, durable
storage still holds the previous serialization, not the one of the mutated
list — the re-serialization is not synchronous within the call. -/
theorem c2_append_not_synchronous :
    ¬ ((appendCall sampleData 1 2 "0.5" emptyCommittedWorld).storage
        = some (serializeGallery
            (appendCall sampleData 1 2 "0.5" emptyCommittedWorld).state.galleryImages)) := by
  decide

/-- C2 amended: the append/remove call itself leaves durable storage
untouched — so a crash right after the mutation keeps every previously
persisted byte and loses at most the in-flight mutation — and the persist
effect that runs after the commit re-serializes the entire updated list to
storage. -/
theorem c2_persist_effect_after_mutation (d : GalleryImageData)
    (idNow tsNow : Nat) (rand id : String) (w : AppWorld) :
    (appendCall d idNow tsNow rand w).storage = w.storage
    ∧ (removeCall id w).storage = w.storage
    ∧ (persistEffect true (appendCall d idNow tsNow rand w)).storage
        = some (serializeGallery
            (handleAddToGallery d idNow tsNow rand w.state).galleryImages)
    ∧ (persistEffect true (removeCall id w)).storage
        = some (serializeGallery
            (handleDeleteFromGallery id w.state).galleryImages) :=
  ⟨rfl, rfl, rfl, rfl⟩

/-- C5 counterexample: an append whose `Date.now()`/`Math.random()` pair
reproduces an existing id synthesizes a colliding id — the code checks
nothing against the list, so the new entry's id equals the old entry's. -/
theorem c5_fresh_id_not_guaranteed :
    galleryIds (handleAddToGallery sampleData 7 8 "0.5" sampleAppState).galleryImages
      = ["7-0.5", "7-0.5"]
    ∧ ¬ (galleryIds
          (handleAddToGallery sampleData 7 8 "0.5" sampleAppState).galleryImages).Nodup := by
  constructor <;> decide

/-- C5 amended: append prepends exactly the entry built from the payload
with id `Date.now() + "-" + Math.random()` and timestamp the `Date.now()`
read for it, so the most recently appended entry is always at index 0; no
collision check is performed, and the id is fresh only when that
synthesized string differs from every id already in the list. -/
theorem c5_append_prepends (d : GalleryImageData) (idNow tsNow : Nat)
    (rand : String) (s : AppState) :
    (handleAddToGallery d idNow tsNow rand s).galleryImages
      = { base64 := d.base64, mimeType := d.mimeType, name := d.name
        , id := mkGalleryId idNow rand, prompt := d.prompt
        , timestamp := tsNow } :: s.galleryImages := rfl

/-- C6: on every state, remove drops exactly the entries carrying the
removed id — no survivor carries it and every other entry survives — it is
a no-op (and raises nothing — the handler is total) when the id is absent,
and it is idempotent. -/
theorem c6_remove_noop_idempotent (id : String) (s : AppState)
    (habs : id ∉ galleryIds s.galleryImages) :
    handleDeleteFromGallery id s = s
    ∧ (∀ t : AppState,
        ∀ img ∈ (handleDeleteFromGallery id t).galleryImages, img.id ≠ id)
    ∧ (∀ t : AppState, ∀ img ∈ t.galleryImages,
        img.id ≠ id → img ∈ (handleDeleteFromGallery id t).galleryImages)
    ∧ ∀ t : AppState,
        handleDeleteFromGallery id (handleDeleteFromGallery id t)
          = handleDeleteFromGallery id t := by
  refine ⟨?_, ?_, ?_, ?_⟩
  · cases s with
    | mk tab slot gal =>
      simp only [handleDeleteFromGallery, AppState.mk.injEq, true_and]
      rw [List.filter_eq_self]
      intro a ha
      simp only [bne_iff_ne, ne_eq]
      intro h
      exact habs (by simpa [galleryIds, h] using List.mem_map_of_mem GalleryImage.id ha)
  · intro t img hmem
    have := List.of_mem_filter hmem
    simpa [bne_iff_ne] using this
  · intro t img hmem hne
    exact List.mem_filter.mpr ⟨hmem, by simpa [bne_iff_ne] using hne⟩
  · intro t
    cases t with
    | mk tab slot gal =>
      simp [handleDeleteFromGallery, List.filter_filter]

/-- Witness for C6 at a concrete gallery and an id it does not contain. -/
theorem c6_remove_noop_idempotent_witness :
    handleDeleteFromGallery "absent" sampleAppState = sampleAppState :=
  (c6_remove_noop_idempotent "absent" sampleAppState (by decide)).1

/-- C7: storage errors are absorbed: loading from an absent record or from
one whose parse throws yields the empty list (the handlers are total — the
caught error is only logged, nothing propagates); a failed storage write
changes nothing durable while the in-memory list still reflects the
attempted mutation. -/
theorem c7_storage_errors_swallowed
    (parse : String → Except String (List GalleryImage)) (str e : String)
    (hp : parse str = Except.error e)
    (d : GalleryImageData) (idNow tsNow : Nat) (rand : String)
    (w : AppWorld) :
    loadGalleryResult none parse = []
    ∧ loadGalleryResult (some str) parse = []
    ∧ persistEffect false w = w
    ∧ (persistEffect false (appendCall d idNow tsNow rand w)).state.galleryImages
        = (handleAddToGallery d idNow tsNow rand w.state).galleryImages := by
  refine ⟨rfl, ?_, rfl, rfl⟩
  simp [loadGalleryResult, loadEffect, hp, initialAppState]

/-- Witness for C7 on an unparsable record. -/
theorem c7_storage_errors_swallowed_witness :
    loadGalleryResult (some "garbage") badParse = [] :=
  (c7_storage_errors_swallowed badParse "garbage"
    "SyntaxError: Unexpected token" rfl sampleData 1 2 "0.5"
    { state := initialAppState, storage := none }).2.1

/-- C8: when the awaited call rejects with an `Error` whose message is
"quota exceeded", both cited workflows end with exactly that message
stored, the result slot cleared, and the loading flag off (inputs enabled
again); `VideoGenerator`'s entity-not-found remap does not fire on this
message. -/
theorem c8_quota_exceeded_failed_state
    (ig : ImageGeneratorState) (hp : ¬ ig.prompt = "")
    (vg : VideoGeneratorState)
    (hi : vg.inputImage.isNone = false) (hk : vg.apiKeyReady = true) :
    (igHandleGenerate ig (Except.error (JSError.errorObj "quota exceeded"))).error
        = some "quota exceeded"
    ∧ (igHandleGenerate ig (Except.error (JSError.errorObj "quota exceeded"))).generatedImage
        = none
    ∧ (igHandleGenerate ig (Except.error (JSError.errorObj "quota exceeded"))).isLoading
        = false
    ∧ (vgHandleGenerate vg (Except.error (JSError.errorObj "quota exceeded"))).error
        = some "quota exceeded"
    ∧ (vgHandleGenerate vg (Except.error (JSError.errorObj "quota exceeded"))).generatedVideoUrl
        = none
    ∧ (vgHandleGenerate vg (Except.error (JSError.errorObj "quota exceeded"))).isLoading
        = false := by
  have hinc : strIncludes "quota exceeded" "Requested entity was not found"
      = false := by decide
  refine ⟨?_, ?_, ?_, ?_, ?_, ?_⟩ <;>
    simp [igHandleGenerate, vgHandleGenerate, hp, hi, hk, errMessageOr, hinc]

/-- Witness for C8 at concrete workflow states. -/
theorem c8_quota_exceeded_failed_state_witness :
    (igHandleGenerate
      { prompt := "a cat", isEnhancing := false, isLoading := true
      , error := none, generatedImage := none }
      (Except.error (JSError.errorObj "quota exceeded"))).error
      = some "quota exceeded" :=
  (c8_quota_exceeded_failed_state
    { prompt := "a cat", isEnhancing := false, isLoading := true
    , error := none, generatedImage := none }
    (by decide)
    { prompt := "", inputImage := some sampleImageFile, isLoading := true
    , error := none, generatedVideoUrl := none, apiKeyReady := true }
    (by decide) (by decide)).1

/-- C9: with the TikTok Shop Creator tab active the switch renders null (no
workflow at all); no reachable state renders the existing
`TikTokShopCreator` component; and the nav bar still shows its button,
enabled. -/
theorem c9_tiktok_tab_renders_nothing :
    (∀ slot gal, renderActiveTab
        { activeTab := AppTab.tiktokShopCreatorTab
        , videoSourceImage := slot, galleryImages := gal }
        = RenderedView.noView)
    ∧ (∀ s : AppState, renderActiveTab s ≠ RenderedView.tikTokShopCreator)
    ∧ { label := "TikTok Shop Creator", isActive := false
      , isDisabled := false } ∈ navTabButtons initialAppState := by
  refine ⟨fun slot gal => rfl, ?_, by decide⟩
  intro s
  cases s with
  | mk tab slot gal => cases tab <;> simp [renderActiveTab]

/-- C10: the persist effect fires already on the initial mount, writing the
serialization of the then-current (initial, empty) in-memory list; when
the stored record is absent or unparsable, the mount leaves storage holding
the serialized empty list `"[]"`, destroying whatever bytes were stored. -/
theorem c10_mount_overwrites_storage
    (parse : String → Except String (List GalleryImage)) (str e : String)
    (hp : parse str = Except.error e) (hne : str ≠ "[]") :
    (mountApp none parse).storage = some "[]"
    ∧ (mountApp (some str) parse).storage = some "[]"
    ∧ (mountApp (some str) parse).storage ≠ some str
    ∧ (∀ (stored : Option String)
         (q : String → Except String (List GalleryImage)),
         (mountPersistWrites stored q).head? = some "[]") := by
  have h0 : serializeGallery [] = "[]" := rfl
  have h2 : (mountApp (some str) parse).storage = some "[]" := by
    simp [mountApp, loadEffect, hp, persistEffect, initialAppState, h0]
  refine ⟨by simp [mountApp, loadEffect, persistEffect, initialAppState, h0],
          h2, ?_, ?_⟩
  · rw [h2]
    intro hcontr
    exact hne (by injection hcontr with h; exact h.symm)
  · intro stored q
    unfold mountPersistWrites
    cases loadEffect stored q <;> simp [h0]

/-- Witness for C10 on a concrete unparsable record. -/
theorem c10_mount_overwrites_storage_witness :
    (mountApp (some "garbage") badParse).storage = some "[]" :=
  (c10_mount_overwrites_storage badParse "garbage"
    "SyntaxError: Unexpected token" rfl (by decide)).2.1

/-- C3: from a Succeeded, not-yet-saved result, triggering save twice adds
exactly one gallery entry: the first save appends and flips the local
`saved` flag to true, and the second save — with `saved` now true — is a
no-op, both in `ImageGenerator` and in `OutfitStudio`. -/
theorem c3_save_twice_single_entry
    (ig : ImageGeneratorState) (g : GeneratedImage) (app : AppState)
    (idNow tsNow idNow' tsNow' : Nat) (rand rand' : String)
    (hg : ig.generatedImage = some g) (hs : g.saved = false)
    (r : OutfitResult) (hr : r.saved = false) :
    ((igHandleSaveToGallery ig idNow tsNow rand app).2.galleryImages.length
        = app.galleryImages.length + 1)
    ∧ ((igHandleSaveToGallery ig idNow tsNow rand app).1.generatedImage
        = some { url := g.url, saved := true })
    ∧ (igHandleSaveToGallery (igHandleSaveToGallery ig idNow tsNow rand app).1
        idNow' tsNow' rand' (igHandleSaveToGallery ig idNow tsNow rand app).2
        = igHandleSaveToGallery ig idNow tsNow rand app)
    ∧ ((outfitHandleSaveToGallery (some r) idNow tsNow rand app).2.galleryImages.length
        = app.galleryImages.length + 1)
    ∧ (outfitHandleSaveToGallery
        (outfitHandleSaveToGallery (some r) idNow tsNow rand app).1
        idNow' tsNow' rand'
        (outfitHandleSaveToGallery (some r) idNow tsNow rand app).2
        = outfitHandleSaveToGallery (some r) idNow tsNow rand app) := by
  obtain ⟨url, sv⟩ := g
  subst hs
  refine ⟨?_, ?_, ?_, ?_, ?_⟩ <;>
    simp [igHandleSaveToGallery, outfitHandleSaveToGallery, hg, hr,
      handleAddToGallery]

/-- Witness for C3 at a concrete unsaved result. -/
theorem c3_save_twice_single_entry_witness :
    (igHandleSaveToGallery
      { prompt := "a cat", isEnhancing := false, isLoading := false
      , error := none
      , generatedImage := some { url := "data:image/jpeg;base64,QUJD", saved := false } }
      3 4 "0.9" initialAppState).2.galleryImages.length
      = initialAppState.galleryImages.length + 1 :=
  (c3_save_twice_single_entry
    { prompt := "a cat", isEnhancing := false, isLoading := false
    , error := none
    , generatedImage := some { url := "data:image/jpeg;base64,QUJD", saved := false } }
    { url := "data:image/jpeg;base64,QUJD", saved := false }
    initialAppState 3 4 5 6 "0.9" "0.8" rfl rfl
    { file := sampleImageFile, saved := false } rfl).1

/-- Two append instructions that draw the identical
`Date.now()`/`Math.random()` pair for the id. -/
def collidingInputs : List AppendInput :=
  [ { data := sampleData, idNow := 5, tsNow := 5, rand := "0.25" },
    { data := sampleData, idNow := 5, tsNow := 6, rand := "0.25" } ]

/-- Two append instructions whose synthesized ids are distinct and collide
with nothing in `sampleAppState`. -/
def freshInputs : List AppendInput :=
  [ { data := sampleData, idNow := 10, tsNow := 10, rand := "0.1" },
    { data := sampleData, idNow := 11, tsNow := 11, rand := "0.2" } ]

/-- C4 counterexample: a sequence of two appends that draw the same
`Date.now()`/`Math.random()` pair synthesizes the same id twice, so the
resulting ids are not pairwise distinct (the length half of the claim does
hold at this input, so the stated conjunction fails). -/
theorem c4_ids_not_always_distinct :
    ¬ ((appendSeq collidingInputs initialAppState).galleryImages.length
          = initialAppState.galleryImages.length + collidingInputs.length
        ∧ (galleryIds
            (appendSeq collidingInputs initialAppState).galleryImages).Nodup) := by
  decide

/-- C4 amended: for every append sequence the length grows by exactly the
number of appends; the resulting ids are pairwise distinct provided the
starting ids are pairwise distinct, the ids the appends synthesize are
pairwise distinct among themselves, and none of them equals a starting
id — conditions the code leaves to the `Date.now()`/`Math.random()`
draws. -/
theorem c4_append_seq_length_and_distinct_ids
    (inputs : List AppendInput) (s : AppState)
    (h1 : (galleryIds s.galleryImages).Nodup)
    (h2 : (inputs.map fun i => mkGalleryId i.idNow i.rand).Nodup)
    (h3 : ∀ i ∈ inputs,
        mkGalleryId i.idNow i.rand ∉ galleryIds s.galleryImages) :
    (appendSeq inputs s).galleryImages.length
        = s.galleryImages.length + inputs.length
    ∧ (galleryIds (appendSeq inputs s).galleryImages).Nodup := by
  have hids : galleryIds (appendSeq inputs s).galleryImages
      = (inputs.map fun i => mkGalleryId i.idNow i.rand).reverse
        ++ galleryIds s.galleryImages := by
    rw [galleryIds, appendSeq_galleryImages, List.map_append,
      List.map_reverse, List.map_map]
    rfl
  constructor
  · rw [appendSeq_galleryImages, List.length_append, List.length_reverse,
      List.length_map, Nat.add_comm]
  · rw [hids, List.nodup_append]
    refine ⟨by rwa [List.nodup_reverse], h1, ?_⟩
    intro a ha
    rw [List.mem_reverse] at ha
    obtain ⟨i, hi, rfl⟩ := List.mem_map.mp ha
    exact h3 i hi

/-- Witness for C4 with fresh, mutually distinct ids over a distinct-id
starting gallery. -/
theorem c4_append_seq_length_and_distinct_ids_witness :
    (appendSeq freshInputs sampleAppState).galleryImages.length
        = sampleAppState.galleryImages.length + freshInputs.length
    ∧ (galleryIds (appendSeq freshInputs sampleAppState).galleryImages).Nodup :=
  c4_append_seq_length_and_distinct_ids freshInputs sampleAppState
    (by decide) (by decide) (by decide)
